import Mathlib

/-!
Verification of the TI-30XS calculator repository's expression engine and
calculator-state functions (src/script.js), as a shallow embedding.

Modelling conventions:
* JS strings are modelled as `List Char`.
* JS numbers (IEEE-754 doubles) are modelled as extended rationals
  (`JSNum`): a finite rational, `+Infinity`, `-Infinity`, or `NaN`.
  Floating-point rounding and overflow of finite operations are not
  modelled — rational arithmetic is exact — but every concrete
  computation carried out in the theorems below is exact in double
  precision as well, so the two semantics agree on them.  The IEEE
  special-value rules for Infinity/NaN ARE modelled, since the code's
  behaviour on division by zero depends on them.
* `new Function("return " + s)()` (script.js line 1246) is modelled by
  `jsEval`: a parser/evaluator for the fragment of JavaScript expression
  syntax over the character set that survives the sanitizer
  (digits, `+ - * / ( ) . , e`).  Any JavaScript error — a SyntaxError
  thrown by `new Function`, or a runtime error thrown by the call — is
  modelled as `none`, matching the `try`/`catch` in `evaluateExpression`
  which converts every failure into a thrown `Error("Invalid expression")`.
  JavaScript corners that no calculator input path reaches are not
  modelled: legacy octal literals (`012`), the `**` operator and `//`
  comments (consecutive operators are collapsed by `insertOperator`),
  and property accesses such as `(2).e`.
-/

namespace TI30XS

attribute [local semireducible] Rat.add Rat.mul Rat.sub Rat.inv

/-- JS strings as lists of characters. -/
def str (s : String) : List Char := s.data

/-- Model of a JavaScript number: a finite rational, an infinity, or NaN.
`undefined` (the value of `return` with an empty expression) is also
mapped to `nan`, which is observationally correct for every use the code
makes of such a value (`isFinite`, `parseInt`, `formatNumber`). -/
inductive JSNum where
  | num (q : ℚ)
  | inf
  | ninf
  | nan
deriving DecidableEq, Repr

/-- JS unary minus. -/
def jsNeg : JSNum → JSNum
  | .num q => .num (-q)
  | .inf => .ninf
  | .ninf => .inf
  | .nan => .nan

/-- JS addition, with the IEEE special-value rules. -/
def jsAdd : JSNum → JSNum → JSNum
  | .nan, _ => .nan
  | _, .nan => .nan
  | .num a, .num b => .num (a + b)
  | .inf, .ninf => .nan
  | .ninf, .inf => .nan
  | .inf, _ => .inf
  | .ninf, _ => .ninf
  | _, .inf => .inf
  | _, .ninf => .ninf

/-- JS subtraction: `a - b = a + (-b)` under the IEEE rules. -/
def jsSub (a b : JSNum) : JSNum := jsAdd a (jsNeg b)

/-- JS multiplication, with the IEEE special-value rules. -/
def jsMul : JSNum → JSNum → JSNum
  | .nan, _ => .nan
  | _, .nan => .nan
  | .num a, .num b => .num (a * b)
  | .num a, .inf => if 0 < a then .inf else if a < 0 then .ninf else .nan
  | .num a, .ninf => if 0 < a then .ninf else if a < 0 then .inf else .nan
  | .inf, .num b => if 0 < b then .inf else if b < 0 then .ninf else .nan
  | .ninf, .num b => if 0 < b then .ninf else if b < 0 then .inf else .nan
  | .inf, .inf => .inf
  | .inf, .ninf => .ninf
  | .ninf, .inf => .ninf
  | .ninf, .ninf => .inf

/-- JS division.  Crucially: a nonzero finite value divided by zero is a
signed infinity, and `0 / 0` is NaN — there is no exception.  (Negative
zero is not modelled; literals produce only `+0`.) -/
def jsDiv : JSNum → JSNum → JSNum
  | .nan, _ => .nan
  | _, .nan => .nan
  | .num a, .num b =>
      if b = 0 then (if 0 < a then .inf else if a < 0 then .ninf else .nan)
      else .num (a / b)
  | .num _, .inf => .num 0
  | .num _, .ninf => .num 0
  | .inf, .num b => if b < 0 then .ninf else .inf
  | .ninf, .num b => if b < 0 then .inf else .ninf
  | _, _ => .nan

/-- JS `isFinite`. -/
def JSNum.isFinite : JSNum → Bool
  | .num _ => true
  | _ => false

/-- JS `<` comparison (false whenever an operand is NaN). -/
def jsLt : JSNum → JSNum → Bool
  | .nan, _ => false
  | _, .nan => false
  | .num a, .num b => a < b
  | .num _, .inf => true
  | .num _, .ninf => false
  | .inf, .num _ => false
  | .ninf, .num _ => true
  | .inf, .inf => false
  | .ninf, .ninf => false
  | .ninf, .inf => true
  | .inf, .ninf => false

/-- JS `Math.floor`. -/
def jsFloor : JSNum → JSNum
  | .num q => .num ⌊q⌋
  | v => v

/-- JS strict inequality `!==`: true whenever an operand is NaN
(`NaN !== NaN`), otherwise structural disequality. -/
def jsNeqS : JSNum → JSNum → Bool
  | .nan, _ => true
  | _, .nan => true
  | a, b => decide (a ≠ b)

/-- Numeric value of a digit character. -/
def digitVal (c : Char) : ℕ := c.toNat - '0'.toNat

/-- Decimal value of a digit list, most significant first. -/
def digitsToNat (l : List Char) : ℕ := l.foldl (fun a c => 10 * a + digitVal c) 0

/-- `10^i` over ℚ for an integer exponent (kernel-friendly). -/
def pow10 (i : ℤ) : ℚ := if 0 ≤ i then ((10 : ℚ) ^ i.toNat) else 1 / (10 : ℚ) ^ (-i).toNat

/-- Attach an optional exponent part (`e`, `e+`, `e-` followed by digits)
to an already-lexed mantissa, per the JS numeric-literal grammar.  An `e`
not followed by digits is a SyntaxError (`none`). -/
def lexExpPart (base : ℚ) (l : List Char) : Option (ℚ × List Char) :=
  match l with
  | 'e' :: r =>
      let (negp, r2) : Bool × List Char :=
        match r with
        | '+' :: r2 => (false, r2)
        | '-' :: r2 => (true, r2)
        | _ => (false, r)
      let (ds, r3) := r2.span Char.isDigit
      if ds.isEmpty then none
      else
        let k := digitsToNat ds
        some ((if negp then base / 10 ^ k else base * 10 ^ k), r3)
  | _ => some (base, l)

/-- Lex a JS decimal numeric literal (`123`, `1.5`, `.5`, `2.`, `1e-3`,
`2.e3`, …) from the head of the input.  Legacy octal literals are not
modelled (see the header comment): a leading-zero integer is read as
decimal. -/
def lexNumber (l : List Char) : Option (ℚ × List Char) :=
  let (ip, r1) := l.span Char.isDigit
  match r1 with
  | '.' :: r2 =>
      let (fp, r3) := r2.span Char.isDigit
      if ip.isEmpty ∧ fp.isEmpty then none
      else lexExpPart ((digitsToNat ip : ℚ) + (digitsToNat fp : ℚ) / 10 ^ fp.length) r3
  | _ =>
      if ip.isEmpty then none
      else lexExpPart (digitsToNat ip : ℚ) r1

/-- After a primary expression, a following `(` would form a call
expression (a runtime TypeError on a number) and a following `.` a
property access (a SyntaxError for the inputs reachable here); both are
modelled as errors. -/
def postfixGuard (v : JSNum) (l : List Char) : Option (JSNum × List Char) :=
  match l with
  | '(' :: _ => none
  | '.' :: _ => none
  | _ => some (v, l)

/-- Parsing modes for the single fueled recursive-descent parser:
`comma`/`commaR` handle the comma operator (value of the last operand),
`add`/`addR` additive operators, `mul`/`mulR` multiplicative operators
(each `R` mode folds a left-associative operator chain into the
accumulator), `unary` the unary `+`/`-`, and `primary` numeric literals
and parenthesized expressions. -/
inductive PMode where
  | comma | commaR | add | addR | mul | mulR | unary | primary

/-- Recursive-descent parser/evaluator for the JavaScript expression
fragment over the sanitizer's character set, mirroring JS precedence
(`* /` over `+ -` over `,`) and left associativity.  The accumulator `d`
carries the left operand in the `R` modes.  A `++`/`--` token (two equal
consecutive sign characters) is a SyntaxError, as in JS. -/
def parseJS : ℕ → PMode → JSNum → List Char → Option (JSNum × List Char)
  | 0, _, _, _ => none
  | f + 1, .comma, d, l =>
      match parseJS f .add d l with
      | some (v, r) => parseJS f .commaR v r
      | none => none
  | f + 1, .commaR, _, ',' :: r =>
      match parseJS f .add (.num 0) r with
      | some (v, r2) => parseJS f .commaR v r2
      | none => none
  | _ + 1, .commaR, d, l => some (d, l)
  | f + 1, .add, d, l =>
      match parseJS f .mul d l with
      | some (v, r) => parseJS f .addR v r
      | none => none
  | f + 1, .addR, d, '+' :: r =>
      if r.head? = some '+' then none
      else
        match parseJS f .mul (.num 0) r with
        | some (w, r2) => parseJS f .addR (jsAdd d w) r2
        | none => none
  | f + 1, .addR, d, '-' :: r =>
      if r.head? = some '-' then none
      else
        match parseJS f .mul (.num 0) r with
        | some (w, r2) => parseJS f .addR (jsSub d w) r2
        | none => none
  | _ + 1, .addR, d, l => some (d, l)
  | f + 1, .mul, d, l =>
      match parseJS f .unary d l with
      | some (v, r) => parseJS f .mulR v r
      | none => none
  | f + 1, .mulR, d, '*' :: r =>
      if r.head? = some '*' then none
      else
        match parseJS f .unary (.num 0) r with
        | some (w, r2) => parseJS f .mulR (jsMul d w) r2
        | none => none
  | f + 1, .mulR, d, '/' :: r =>
      if r.head? = some '/' then none
      else
        match parseJS f .unary (.num 0) r with
        | some (w, r2) => parseJS f .mulR (jsDiv d w) r2
        | none => none
  | _ + 1, .mulR, d, l => some (d, l)
  | f + 1, .unary, d, '-' :: r =>
      if r.head? = some '-' then none
      else
        match parseJS f .unary d r with
        | some (v, r2) => some (jsNeg v, r2)
        | none => none
  | f + 1, .unary, d, '+' :: r =>
      if r.head? = some '+' then none
      else parseJS f .unary d r
  | f + 1, .unary, d, l => parseJS f .primary d l
  | f + 1, .primary, d, '(' :: r =>
      match parseJS f .comma d r with
      | some (v, ')' :: r2) => postfixGuard v r2
      | _ => none
  | _ + 1, .primary, _, l =>
      match lexNumber l with
      | some (q, r) => postfixGuard (.num q) r
      | none => none

/-- Model of `new Function("return " + s)()`: an empty expression returns
`undefined` (modelled `nan`); otherwise the whole input must parse as one
expression; leftover input or a parse failure is an error (`none`). -/
def jsEval (l : List Char) : Option JSNum :=
  if l.isEmpty then some .nan
  else
    match parseJS (8 * l.length + 8) .comma (.num 0) l with
    | some (v, []) => some v
    | _ => none

/-- The sanitizer of `evaluateExpression` (script.js line 1242): the regex
`[^0-9+\-*/().,e]` deletes every character outside this set. -/
def keepChar (c : Char) : Bool :=
  c.isDigit || c = '+' || c = '-' || c = '*' || c = '/' ||
    c = '(' || c = ')' || c = '.' || c = ',' || c = 'e'

/-- `evaluateExpression` (script.js lines 1239–1251): sanitize, then run
the JS engine on `"return " ++ sanitized`; a thrown error is `none`. -/
def evaluateExpression (l : List Char) : Option JSNum := jsEval (l.filter keepChar)

/-- Global single-character replacement, modelling `String.replace` with a
`/x/g` regex whose replacement is one character. -/
def replaceChar (a b : Char) (l : List Char) : List Char :=
  l.map (fun c => if c = a then b else c)

/-- Global single-character replacement by a string. -/
def replaceCharStr (a : Char) (s : List Char) (l : List Char) : List Char :=
  l.flatMap (fun c => if c = a then s else [c])

/-- `parseExpression` (script.js lines 1226–1237): the six chained
`replace` calls, in source order.  `Math.PI.toString()` is
`"3.141592653589793"` and `Math.E.toString()` is `"2.718281828459045"`. -/
def parseExpression (l : List Char) : List Char :=
  replaceChar 'E' 'e'
    (replaceCharStr 'e' (str "2.718281828459045")
      (replaceCharStr 'π' (str "3.141592653589793")
        (replaceChar '−' '-'
          (replaceChar '÷' '/'
            (replaceChar '×' '*' l)))))

/-- The evaluation pipeline used by `calculate` and the `execute*`
functions: `evaluateExpression(parseExpression(entry))`. -/
def evalPipeline (l : List Char) : Option JSNum := evaluateExpression (parseExpression l)

/-- The character for a decimal digit value. -/
def digitChar (n : ℕ) : Char := Char.ofNat ('0'.toNat + n)

/-- Decimal digit list of a natural number, most significant digit first
(fueled so that it kernel-reduces). -/
def natDigitsAux : ℕ → ℕ → List Char → List Char
  | 0, _, acc => acc
  | f + 1, n, acc =>
      if n < 10 then digitChar n :: acc
      else natDigitsAux f (n / 10) (digitChar (n % 10) :: acc)

/-- Decimal digit list of a natural number. -/
def natDigits (n : ℕ) : List Char := natDigitsAux (n + 1) n []

/-- Decimal rendering of an integer, as JS `String(i)` renders an
integer-valued number: a `-` sign for negatives, no `+` sign. -/
def intToChars (i : ℤ) : List Char :=
  if i < 0 then '-' :: natDigits (-i).toNat else natDigits i.toNat

/-- Base-10 logarithm of a natural number (number of digits minus one),
fueled so that it kernel-reduces. -/
def log10Aux : ℕ → ℕ → ℕ
  | 0, _ => 0
  | f + 1, n => if n < 10 then 0 else log10Aux f (n / 10) + 1

/-- `log10N n = ⌊log10 n⌋` for `n ≥ 1`. -/
def log10N (n : ℕ) : ℕ := log10Aux (n + 1) n

/-- Least `k` (starting from the given one) with `1 ≤ a * 10 ^ k`. -/
def leastKAux (a : ℚ) : ℕ → ℕ → ℕ
  | 0, k => k
  | f + 1, k => if 1 ≤ a * 10 ^ k then k else leastKAux a f (k + 1)

/-- `⌊log10 |a|⌋` for a nonzero rational: the unique `e` with
`10 ^ e ≤ |a| < 10 ^ (e+1)`.  Models the exact mathematical value that
`Math.floor(Math.log10(x))` computes (double rounding of `log10` is not
modelled). -/
def floorLog10 (a : ℚ) : ℤ :=
  if 1 ≤ |a| then (log10N (Int.toNat ⌊|a|⌋) : ℤ)
  else -(leastKAux |a| (log10N (|a|).den + 2) 1 : ℤ)

/-- Rounding to the nearest integer, ties away from zero on the
magnitude — the rounding ECMAScript prescribes for `toFixed`,
`toExponential` and `toPrecision` (applied there to nonnegative inputs). -/
def roundHalfUp (q : ℚ) : ℤ := ⌊q + 1 / 2⌋

/-- `toFixed` on a nonnegative value: round at `d` decimals, zero-pad,
insert the decimal point (`(0.004).toFixed(2) = "0.00"`, `d = 0` yields
no point). -/
def toFixedPos (q : ℚ) (d : ℕ) : List Char :=
  let n := (roundHalfUp (q * 10 ^ d)).toNat
  if d = 0 then natDigits n
  else
    let s := natDigits n
    let s2 := if s.length < d + 1 then List.replicate (d + 1 - s.length) '0' ++ s else s
    s2.take (s2.length - d) ++ '.' :: s2.drop (s2.length - d)

/-- JS `Number.prototype.toFixed` (for values rendered in fixed notation:
`|q| < 10^21`): a negative value is `"-"` followed by `toFixed` of its
negation. -/
def toFixedChars (q : ℚ) (d : ℕ) : List Char :=
  if q < 0 then '-' :: toFixedPos (-q) d else toFixedPos q d

/-- JS `Number.prototype.toExponential d`: a mantissa with one leading
digit and `d` fractional digits, `e`, an always-signed exponent
(`(0).toExponential(2) = "0.00e+0"`, `(1e-12).toExponential(10) =
"1.0000000000e-12"`). -/
def toExponentialChars (q : ℚ) (d : ℕ) : List Char :=
  if q = 0 then
    (if d = 0 then ['0'] else '0' :: '.' :: List.replicate d '0') ++ ['e', '+', '0']
  else
    let sgn : List Char := if q < 0 then ['-'] else []
    let a := |q|
    let e0 := floorLog10 a
    let n := (roundHalfUp (a * pow10 ((d : ℤ) - e0))).toNat
    let p := if n = 10 ^ (d + 1) then ((10 : ℕ) ^ d, e0 + 1) else (n, e0)
    let mant : List Char :=
      match natDigits p.1 with
      | [] => ['0']
      | c :: rest => if d = 0 then [c] else c :: '.' :: rest
    sgn ++ mant ++ 'e' :: (if p.2 < 0 then '-' else '+') :: natDigits p.2.natAbs

/-- Strip trailing zero digits from a positive natural, returning the
stripped number and the count of zeros removed. -/
def stripZerosAux : ℕ → ℕ → ℕ × ℕ
  | 0, n => (n, 0)
  | f + 1, n =>
      if n ≠ 0 ∧ n % 10 = 0 then
        let p := stripZerosAux f (n / 10)
        (p.1, p.2 + 1)
      else (n, 0)

/-- Model of `parseFloat(num.toPrecision(10)).toString()` — the NORM-mode
branch of `formatNumber` for in-range values: round to 10 significant
digits, then print as JS `toString` prints the resulting value (decimal
notation while the exponent lies in `[-6, 20]`, exponential notation
outside, no trailing fractional zeros).  The reparse by `parseFloat` is
exact here because a 10-significant-digit decimal round-trips through a
double. -/
def normToString (q : ℚ) : List Char :=
  if q = 0 then ['0']
  else
    let sgn : List Char := if q < 0 then ['-'] else []
    let a := |q|
    let e0 := floorLog10 a
    let n := (roundHalfUp (a * pow10 ((9 : ℤ) - e0))).toNat
    let p := if n = 10 ^ 10 then ((10 : ℕ) ^ 9, e0 + 1) else (n, e0)
    let mz := stripZerosAux 40 p.1
    let ds := natDigits mz.1
    let k := ds.length
    let e2 := p.2
    sgn ++
      (if -6 ≤ e2 ∧ e2 ≤ 20 then
        if 0 ≤ e2 - ((k : ℤ) - 1) then ds ++ List.replicate (e2 - ((k : ℤ) - 1)).toNat '0'
        else if 0 < e2 + 1 then
          ds.take (e2 + 1).toNat ++ '.' :: ds.drop (e2 + 1).toNat
        else '0' :: '.' :: List.replicate (-(e2 + 1)).toNat '0' ++ ds
      else
        (match ds with
          | [] => ['0']
          | c :: rest => if rest.isEmpty then [c] else c :: '.' :: rest) ++
          'e' :: (if e2 < 0 then '-' else '+') :: natDigits e2.natAbs)

/-- The display-mode configuration enum (script.js line 24). -/
inductive DisplayMode where
  | NORM | FIX | SCI | ENG
deriving DecidableEq, Repr

/-- The angle-mode configuration enum (script.js line 23). -/
inductive AngleMode where
  | DEG | RAD | GRAD
deriving DecidableEq, Repr

/-- `formatEngineering` (script.js lines 1280–1291): exact zero prints
`"0"`; otherwise the base-10 exponent is floored to a multiple of 3 and
the signed mantissa printed with `fixDecimals` decimals, `E`, and the
exponent. -/
def formatEngineering (q : ℚ) (fd : ℕ) : List Char :=
  if q = 0 then ['0']
  else
    let exp := floorLog10 |q|
    let engExp := 3 * Int.fdiv exp 3
    toFixedChars (q / pow10 engExp) fd ++ 'E' :: intToChars engExp

/-- `formatNumber` (script.js lines 1254–1278).  Non-finite input and NaN
yield `"Error"`.  The NORM epsilon bounds `1e-10`/`1e10` are modelled as
exact powers of ten (the nearest doubles differ from them only beyond the
53rd bit, which no comparison made here distinguishes). -/
def formatNumber (v : JSNum) (mode : DisplayMode) (fd : ℕ) : List Char :=
  match v with
  | .num q =>
      match mode with
      | .FIX => toFixedChars q fd
      | .SCI => toExponentialChars q fd
      | .ENG => formatEngineering q fd
      | .NORM =>
          if |q| < 1 / 10 ^ 10 ∨ 10 ^ 10 < |q| then toExponentialChars q 10
          else normToString q
  | _ => str "Error"

/-- Truncation of a rational toward zero. -/
def ratTrunc (q : ℚ) : ℤ := if 0 ≤ q then ⌊q⌋ else -⌊-q⌋

/-- JS `parseInt` applied to a number (as in
`parseInt(evaluateExpression(...))`): the number is converted to a string
and the leading integer prefix of that string parsed.  `NaN` and
`±Infinity` stringify to words and give `NaN`.  A finite value whose
`toString` is in decimal notation (`q = 0` or `1e-6 ≤ |q| < 1e21`) is
truncated toward zero (`parseInt` stops at the decimal point).  A value
rendered in exponential notation (`0 < |q| < 1e-6` or `|q| ≥ 1e21`)
prints as `d.ddd…e±M`, and `parseInt` stops at the `.` or the `e`,
returning the signed leading significant digit: `parseInt(5e-7) = 5`,
`parseInt(1.5e-7) = 1`, `parseInt(1e32) = 1`.  The leading digit is
computed here from the exact rational; the double's shortest decimal
rendering agrees except where its final rounding changes the first
digit, a corner no theorem below relies on. -/
def parseIntJS : JSNum → JSNum
  | .num q =>
      if q = 0 then .num 0
      else if 1 / 10 ^ 6 ≤ |q| ∧ |q| < 10 ^ 21 then .num (ratTrunc q : ℚ)
      else
        let d : ℤ := ⌊|q| / pow10 (floorLog10 |q|)⌋
        .num ((if q < 0 then -d else d : ℤ) : ℚ)
  | _ => .nan

/-- The exact rational value of the double `Math.PI`
(`884279719003555 × 2⁻⁴⁸`). -/
def MathPI : ℚ := 884279719003555 / 281474976710656

/-- `convertAngleToRadians` (script.js lines 1293–1304); the `switch`
`default` branch is unreachable over the mode enum. -/
def convertAngleToRadians (mode : AngleMode) (angle : ℚ) : ℚ :=
  match mode with
  | .DEG => angle * MathPI / 180
  | .RAD => angle
  | .GRAD => angle * MathPI / 200

/-- `convertRadiansToAngle` (script.js lines 1306–1317). -/
def convertRadiansToAngle (mode : AngleMode) (radians : ℚ) : ℚ :=
  match mode with
  | .DEG => radians * 180 / MathPI
  | .RAD => radians
  | .GRAD => radians * 200 / MathPI

/-- `HISTORY_SIZE` (script.js line 16). -/
def HISTORY_SIZE : ℕ := 8

/-- `addToHistory` (script.js lines 1329–1334): `unshift` the new
`{entry, result}` pair, then `pop` the last element when the length
exceeds `HISTORY_SIZE`. -/
def addToHistory (entry result : List Char)
    (history : List (List Char × List Char)) : List (List Char × List Char) :=
  let h := (entry, result) :: history
  if HISTORY_SIZE < h.length then h.dropLast else h

/-- The calculator state (script.js lines 19–52), restricted to the
fields the functions verified here read or write.  The DOM-only fields
(`memory`, `lists`, cursor and mode flags not consulted by these
functions) are omitted. -/
structure CalcState where
  isOn : Bool := false
  angleMode : AngleMode := .DEG
  displayMode : DisplayMode := .NORM
  fixDecimals : ℕ := 2
  entryLine : List Char := []
  resultLine : List Char := []
  history : List (List Char × List Char) := []
  lastAnswer : JSNum := .num 0
  historyIndex : ℤ := -1
deriving DecidableEq, Repr

/-- A freshly turned-on calculator with the given entry line. -/
def onStateWith (e : List Char) : CalcState := { isOn := true, entryLine := e }

/-- `calculate` (script.js lines 1199–1223), returning the new state and
the error message passed to `showError`, if any.  An exception from the
pipeline is the `none` case (`catch` → `"Syntax error"`); a non-finite
result is rejected with `"Invalid calculation"`; only a finite result
updates `lastAnswer`, `resultLine`, the history, and clears the entry. -/
def calculate (s : CalcState) : CalcState × Option (List Char) :=
  if !s.isOn || s.entryLine.isEmpty then (s, none)
  else
    match evalPipeline s.entryLine with
    | none => (s, some (str "Syntax error"))
    | some v =>
        if v.isFinite then
          let res := formatNumber v s.displayMode s.fixDecimals
          ({ s with lastAnswer := v,
                    resultLine := res,
                    history := addToHistory s.entryLine res s.history,
                    entryLine := [],
                    historyIndex := -1 }, none)
        else (s, some (str "Invalid calculation"))

/-- `executeFactorial` (script.js lines 959–990): the entry is evaluated
through the pipeline and passed through `parseInt` (an empty entry gives
`0`); the guards then reject `value < 0 || value !== Math.floor(value)`
(which, after `parseInt`, only `NaN` or a negative integer can trigger)
and `value > 170`; otherwise the iterative product is computed and the
state updated like a successful `calculate`, with `"!"` appended to the
history entry. -/
def factIter : ℕ → ℕ
  | 0 => 1
  | n + 1 => factIter n * (n + 1)

/-- See `factIter`; this is the state-level `executeFactorial`. -/
def executeFactorial (s : CalcState) : CalcState × Option (List Char) :=
  if !s.isOn then (s, none)
  else
    match (if s.entryLine.isEmpty then some (JSNum.num 0)
           else (evalPipeline s.entryLine).map parseIntJS) with
    | none => (s, some (str "Invalid input"))
    | some v =>
        if jsLt v (.num 0) || jsNeqS v (jsFloor v) then
          (s, some (str "Invalid input for factorial"))
        else if jsLt (.num 170) v then
          (s, some (str "Factorial too large"))
        else
          let n : ℕ := match v with
            | .num q => (ratTrunc q).toNat
            | _ => 0
          let result : JSNum := .num (factIter n)
          let res := formatNumber result s.displayMode s.fixDecimals
          ({ s with resultLine := res,
                    lastAnswer := result,
                    history := addToHistory (s.entryLine ++ ['!']) res s.history,
                    entryLine := [] }, none)

/-- `insertNegative` (script.js lines 716–731): a no-op when off; an
empty entry becomes `"−"`; otherwise the leading `"−"` is toggled
(`startsWith` check, `substring(1)` removal, prepend). -/
def insertNegative (s : CalcState) : CalcState :=
  if !s.isOn then s
  else if s.entryLine.isEmpty then { s with entryLine := ['−'] }
  else if s.entryLine.head? = some '−' then { s with entryLine := s.entryLine.tail }
  else { s with entryLine := '−' :: s.entryLine }

/-- True when the evaluation of this entry line fails in the sense of
`calculate`'s error paths: the pipeline throws (`none`) or returns a
non-finite value. -/
def evalFailsB (l : List Char) : Bool :=
  match evalPipeline l with
  | none => true
  | some v => !v.isFinite

/-- Result type of the combinatorial operations: a numeric value or the
spec's DomainError. -/
inductive CombResult where
  | ok (q : ℚ)
  | domainError
deriving DecidableEq, Repr

/-- Modelled from the spec: no combination code exists anywhere in the
repository's sources (`nCr`/`nPr` appear only in the specification), so
the multiplicative symmetry-reduced form of §4.3 is modelled here:
`C(n,k) = ∏ i in [1..k], (n-k+i)/i` with `k = min(r, n-r)`. -/
def nCrMult (n k : ℕ) : ℚ :=
  (List.range k).foldl (fun acc i => acc * (((n : ℚ) - k + (i + 1)) / (i + 1))) 1

/-- Modelled from the spec: `nCr` fails with DomainError when either
operand is negative or non-integral, returns 0 when the chosen count
exceeds the population size, and otherwise computes the multiplicative
symmetry-reduced product with the final result rounded to the nearest
integer. -/
def nCr (a b : ℚ) : CombResult :=
  if a < 0 ∨ b < 0 ∨ a.den ≠ 1 ∨ b.den ≠ 1 then .domainError
  else
    let n := a.num.toNat
    let r := b.num.toNat
    if n < r then .ok 0
    else .ok ((roundHalfUp (nCrMult n (min r (n - r))) : ℤ) : ℚ)

/-- Modelled from the spec: `nPr` with the same domain rules as `nCr`,
computing the falling product `n · (n-1) ⋯ (n-r+1)`. -/
def nPr (a b : ℚ) : CombResult :=
  if a < 0 ∨ b < 0 ∨ a.den ≠ 1 ∨ b.den ≠ 1 then .domainError
  else
    let n := a.num.toNat
    let r := b.num.toNat
    if n < r then .ok 0
    else .ok ((List.range r).foldl (fun acc i => acc * ((n : ℚ) - i)) 1)

/-! ### Helper lemmas -/

/-- Truncation is the identity on integers. -/
theorem ratTrunc_intCast (n : ℤ) : ratTrunc (n : ℚ) = n := by
  unfold ratTrunc
  by_cases h : (0 : ℚ) ≤ (n : ℚ)
  · rw [if_pos h, Int.floor_intCast]
  · rw [if_neg h]
    rw [show -(n : ℚ) = ((-n : ℤ) : ℚ) by push_cast; ring, Int.floor_intCast]
    ring

/-- On operands stringified in decimal notation (zero, or magnitude in
`[1e-6, 1e21)`), `parseInt` is truncation toward zero. -/
theorem parseIntJS_decimal (q : ℚ) (h : q = 0 ∨ (1 / 10 ^ 6 ≤ |q| ∧ |q| < 10 ^ 21)) :
    parseIntJS (.num q) = .num ((ratTrunc q : ℤ) : ℚ) := by
  rcases h with rfl | ⟨h1, h2⟩
  · decide
  · have hq0 : q ≠ 0 := by
      intro h0
      rw [h0] at h1
      norm_num at h1
    simp only [parseIntJS]
    rw [if_neg hq0, if_pos ⟨h1, h2⟩]

/-- `nCr` on natural-number operands: the domain guard never fires. -/
theorem nCr_natCast (n r : ℕ) :
    nCr (n : ℚ) (r : ℚ) =
      if n < r then .ok 0
      else .ok ((roundHalfUp (nCrMult n (min r (n - r))) : ℤ) : ℚ) := by
  unfold nCr
  rw [if_neg]
  · simp [Rat.num_natCast]
  · push_neg
    exact ⟨by positivity, by positivity, by simp [Rat.den_natCast], by simp [Rat.den_natCast]⟩

/-- `nPr` on natural-number operands: the domain guard never fires. -/
theorem nPr_natCast (n r : ℕ) :
    nPr (n : ℚ) (r : ℚ) =
      if n < r then .ok 0
      else .ok ((List.range r).foldl (fun acc i => acc * ((n : ℚ) - i)) 1) := by
  unfold nPr
  rw [if_neg]
  · simp [Rat.num_natCast]
  · push_neg
    exact ⟨by positivity, by positivity, by simp [Rat.den_natCast], by simp [Rat.den_natCast]⟩

/-! ### Claim theorems -/

/-- C1: the claim states that the pipeline evaluates `"2^3^2"` to 512
(right-associative exponentiation).  In the code, `parseExpression`
leaves the caret unchanged and the sanitizer of `evaluateExpression`
deletes it (its character class has no `^`), so the operands' digits
concatenate and the pipeline returns 232 — neither 512 nor 64.  This
theorem records the code's actual behaviour at the claim's input. -/
theorem c1_caret_stripped_eval :
    (parseExpression (str "2^3^2")).filter keepChar = str "232" ∧
    evalPipeline (str "2^3^2") = some (.num 232) := by
  decide

/-- C2 counterexample: evaluating `"5 / 0"` does not produce a
DivideByZero failure — the pipeline has no epsilon test and no typed
error kinds.  JavaScript division yields `Infinity`, which `calculate`
rejects with the generic message `"Invalid calculation"` (the only other
message it can emit being `"Syntax error"`). -/
theorem c2_div_by_zero_counterexample :
    evalPipeline (str "5 / 0") = some JSNum.inf ∧
    calculate (onStateWith (str "5 / 0")) =
      (onStateWith (str "5 / 0"), some (str "Invalid calculation")) := by
  decide

/-- C2 amended: dividing a positive finite value by exact zero yields
`+Infinity` (no epsilon check, no DivideByZero error kind exists in the
code), and on the entry `"5 / 0"` `calculate` rejects the non-finite
result with the message `"Invalid calculation"`, leaving the state
unchanged. -/
theorem c2_div_by_zero_amended :
    (∀ q : ℚ, 0 < q → jsDiv (.num q) (.num 0) = JSNum.inf) ∧
    (calculate (onStateWith (str "5 / 0"))).1 = onStateWith (str "5 / 0") ∧
    (calculate (onStateWith (str "5 / 0"))).2 = some (str "Invalid calculation") := by
  refine ⟨fun q hq => ?_, by decide, by decide⟩
  simp [jsDiv, hq, hq.ne.symm]

/-- Witness for C2's amended theorem at the divisor pair (5, 0). -/
theorem c2_div_by_zero_amended_witness :
    (0 : ℚ) < 5 ∧ jsDiv (.num 5) (.num 0) = JSNum.inf :=
  ⟨by norm_num, c2_div_by_zero_amended.1 5 (by norm_num)⟩

/-- C3 counterexample: the entry `"2.5"` evaluates to the non-integral
2.5, yet `executeFactorial` does not fail with a domain error: `parseInt`
truncates the value to 2 before the integrality check, and the factorial
of 2 is displayed. -/
theorem c3_fractional_factorial_counterexample :
    evalPipeline (str "2.5") = some (.num (5 / 2)) ∧
    executeFactorial (onStateWith (str "2.5")) =
      ({ isOn := true, resultLine := str "2",
         history := [(str "2.5!", str "2")], lastAnswer := .num 2 }, none) := by
  decide

/-- C3 amended: `executeFactorial` passes the evaluated operand through
`parseInt` before any check, so a non-integral operand never reaches the
integrality guard.  For operands stringified in decimal notation (zero,
or magnitude in `[1e-6, 1e21)`) `parseInt` truncates toward zero: a
negative truncated value fails with the domain-error message, a
truncated value above 170 fails with the overflow message, and a
truncated value `n` with `0 ≤ n ≤ 170` succeeds with the iterative
product `n!` (so `"5"` gives 120, `"0"` gives 1, `"171"` overflows — but
`"2.5"` gives 2 rather than a DomainError).  For operands stringified in
exponential notation `parseInt` reads only the leading mantissa digit:
the entry `"0.0000005"` evaluates to `5e-7`, parses to 5, and displays
`5! = 120`. -/
theorem c3_factorial_truncates_amended :
    (∀ (s : CalcState) (q : ℚ), s.isOn = true → s.entryLine ≠ [] →
      evalPipeline s.entryLine = some (.num q) →
      (q = 0 ∨ (1 / 10 ^ 6 ≤ |q| ∧ |q| < 10 ^ 21)) →
      (ratTrunc q < 0 →
        executeFactorial s = (s, some (str "Invalid input for factorial"))) ∧
      (170 < ratTrunc q →
        executeFactorial s = (s, some (str "Factorial too large"))) ∧
      (0 ≤ ratTrunc q → ratTrunc q ≤ 170 →
        (executeFactorial s).2 = none ∧
        (executeFactorial s).1.lastAnswer = .num (factIter (ratTrunc q).toNat) ∧
        (executeFactorial s).1.entryLine = [])) ∧
    executeFactorial (onStateWith (str "0.0000005")) =
      ({ isOn := true, resultLine := str "120",
         history := [(str "0.0000005!", str "120")], lastAnswer := .num 120 }, none) := by
  constructor
  · intro s q hOn hNe hEval hreg
    have hEmpty : s.entryLine.isEmpty = false := by
      cases h : s.entryLine with
      | nil => exact absurd h hNe
      | cons a t => rfl
    have hmap : (evalPipeline s.entryLine).map parseIntJS =
        some (.num ((ratTrunc q : ℤ) : ℚ)) := by
      rw [hEval]
      show some (parseIntJS (.num q)) = _
      rw [parseIntJS_decimal q hreg]
    refine ⟨fun hneg => ?_, fun hbig => ?_, fun h0 h170 => ?_⟩
    · have h1 : ((ratTrunc q : ℤ) : ℚ) < 0 := by exact_mod_cast hneg
      unfold executeFactorial
      rw [hOn]
      simp [hEmpty, hmap, jsLt, jsNeqS, jsFloor, Int.floor_intCast, h1, hneg]
    · have h0' : ¬ ratTrunc q < 0 := by omega
      have h1 : ¬ ((ratTrunc q : ℤ) : ℚ) < 0 := by exact_mod_cast h0'
      have h2 : (170 : ℚ) < ((ratTrunc q : ℤ) : ℚ) := by exact_mod_cast hbig
      unfold executeFactorial
      rw [hOn]
      simp [hEmpty, hmap, jsLt, jsNeqS, jsFloor, Int.floor_intCast,
        h0', h1, h2, hbig]
    · have h0' : ¬ ratTrunc q < 0 := by omega
      have h1 : ¬ ((ratTrunc q : ℤ) : ℚ) < 0 := by exact_mod_cast h0'
      have h2' : ¬ 170 < ratTrunc q := by omega
      have h2 : ¬ (170 : ℚ) < ((ratTrunc q : ℤ) : ℚ) := by exact_mod_cast h2'
      unfold executeFactorial
      rw [hOn]
      simp [hEmpty, hmap, jsLt, jsNeqS, jsFloor, Int.floor_intCast,
        h0', h1, h2', h2, ratTrunc_intCast]
  · decide

/-- Witness for C3's amended theorem at the entry `"5"`: the operand is
in the decimal-notation regime, the truncated value is 5, and the
factorial 120 is produced. -/
theorem c3_factorial_truncates_amended_witness :
    ((1 : ℚ) / 10 ^ 6 ≤ |(5 : ℚ)| ∧ |(5 : ℚ)| < 10 ^ 21) ∧
    (0 : ℤ) ≤ ratTrunc 5 ∧ ratTrunc 5 ≤ 170 ∧
    (executeFactorial (onStateWith (str "5"))).2 = none ∧
    (executeFactorial (onStateWith (str "5"))).1.lastAnswer = .num (factIter (ratTrunc 5).toNat) := by
  have h := c3_factorial_truncates_amended.1 (onStateWith (str "5")) 5 rfl
    (by decide) (by decide) (Or.inr (by decide))
  have h5 : (0 : ℤ) ≤ ratTrunc 5 ∧ ratTrunc 5 ≤ 170 := by decide
  exact ⟨by decide, h5.1, h5.2, (h.2.2 h5.1 h5.2).1, (h.2.2 h5.1 h5.2).2.1⟩

/-- C4 (spec-modelled): the symmetry-reduced combination operation is
symmetric — `nCr(n, r) = nCr(n, n-r)` for naturals `r ≤ n` — and
`nCr`/`nPr` fail with DomainError on any negative or non-integral
operand, return 0 when the chosen count exceeds the population size, and
compute the multiplicative form with the final result rounded to the
nearest integer. -/
theorem c4_nCr_symmetry_and_domain :
    (∀ n r : ℕ, r ≤ n → nCr (n : ℚ) (r : ℚ) = nCr (n : ℚ) ((n - r : ℕ) : ℚ)) ∧
    (∀ a b : ℚ, (a < 0 ∨ b < 0 ∨ a.den ≠ 1 ∨ b.den ≠ 1) →
      nCr a b = .domainError ∧ nPr a b = .domainError) ∧
    (∀ n r : ℕ, n < r → nCr (n : ℚ) (r : ℚ) = .ok 0 ∧ nPr (n : ℚ) (r : ℚ) = .ok 0) ∧
    (∀ n r : ℕ, r ≤ n →
      nCr (n : ℚ) (r : ℚ) = .ok ((roundHalfUp (nCrMult n (min r (n - r))) : ℤ) : ℚ)) := by
  refine ⟨fun n r h => ?_, fun a b h => ?_, fun n r h => ?_, fun n r h => ?_⟩
  · rw [nCr_natCast, nCr_natCast, if_neg (not_lt.mpr h),
      if_neg (not_lt.mpr (Nat.sub_le n r)), Nat.sub_sub_self h, min_comm]
  · constructor
    · unfold nCr
      rw [if_pos h]
    · unfold nPr
      rw [if_pos h]
  · rw [nCr_natCast, if_pos h, nPr_natCast, if_pos h]
    exact ⟨rfl, rfl⟩
  · rw [nCr_natCast, if_neg (not_lt.mpr h)]

/-- Witness for C4 at `n = 5`, `r = 2`: `C(5,2) = C(5,3) = 10`. -/
theorem c4_nCr_symmetry_and_domain_witness :
    (2 : ℕ) ≤ 5 ∧ nCr ((5 : ℕ) : ℚ) ((2 : ℕ) : ℚ) = nCr ((5 : ℕ) : ℚ) (((5 - 2 : ℕ)) : ℚ) ∧
    nCr ((5 : ℕ) : ℚ) ((2 : ℕ) : ℚ) = .ok 10 :=
  ⟨by decide, c4_nCr_symmetry_and_domain.1 5 2 (by decide), by decide⟩

/-- C5 counterexample: `v = 1e-12` has `|v|` below the epsilon `1e-10`,
and NORM mode (the default, with `fixDecimals = 2`) renders it as
`"1.0000000000e-12"` — not the literal zero string. -/
theorem c5_small_value_counterexample :
    |(1 : ℚ) / 10 ^ 12| < 1 / 10 ^ 10 ∧
    formatNumber (.num (1 / 10 ^ 12)) .NORM 2 = str "1.0000000000e-12" ∧
    formatNumber (.num (1 / 10 ^ 12)) .NORM 2 ≠ str "0" := by
  refine ⟨by decide, by decide, by decide⟩

/-- C5 amended: `formatNumber` has no sub-epsilon zero special case.  In
NORM mode every value with `|v| < 1e-10` is rendered in exponential
notation with `DISPLAY_PRECISION` (10) mantissa digits via
`toExponential`, never as the literal zero string; the other modes apply
their general formatting rules to such values, and only
`formatEngineering` maps exactly zero to `"0"`. -/
theorem c5_norm_small_values_exponential :
    ∀ (q : ℚ) (fd : ℕ), |q| < 1 / 10 ^ 10 →
      formatNumber (.num q) .NORM fd = toExponentialChars q 10 := by
  intro q fd h
  simp only [formatNumber]
  rw [if_pos (Or.inl h)]

/-- Witness for C5's amended theorem at `v = 1e-12`. -/
theorem c5_norm_small_values_exponential_witness :
    |(1 : ℚ) / 10 ^ 12| < 1 / 10 ^ 10 ∧
    formatNumber (.num (1 / 10 ^ 12)) .NORM 5 = toExponentialChars (1 / 10 ^ 12) 10 :=
  ⟨by decide, c5_norm_small_values_exponential (1 / 10 ^ 12) 5 (by decide)⟩

/-- C6: when evaluation of the entry line fails (the pipeline throws, or
its result is not finite), `calculate` returns the state completely
unchanged — in particular the raw entry line is preserved and no numeric
result replaces it — and surfaces the failure only as one of its two
short error messages. -/
theorem c6_calculate_atomic_on_failure :
    ∀ s : CalcState, s.isOn = true → s.entryLine ≠ [] → evalFailsB s.entryLine = true →
      (calculate s).1 = s ∧
      ((calculate s).2 = some (str "Syntax error") ∨
        (calculate s).2 = some (str "Invalid calculation")) := by
  intro s hOn hNe hFail
  have hEmpty : s.entryLine.isEmpty = false := by
    cases h : s.entryLine with
    | nil => exact absurd h hNe
    | cons a t => rfl
  unfold calculate
  rw [hOn]
  unfold evalFailsB at hFail
  cases hE : evalPipeline s.entryLine with
  | none => simp [hEmpty, hE]
  | some v =>
      rw [hE] at hFail
      have hv : v.isFinite = false := by simpa using hFail
      simp [hEmpty, hE, hv]

/-- Witness for C6 at the entry `"5 ÷ 0"`, whose evaluation yields the
non-finite `Infinity`. -/
theorem c6_calculate_atomic_on_failure_witness :
    (onStateWith (str "5 ÷ 0")).isOn = true ∧
    (onStateWith (str "5 ÷ 0")).entryLine ≠ [] ∧
    evalFailsB (onStateWith (str "5 ÷ 0")).entryLine = true ∧
    (calculate (onStateWith (str "5 ÷ 0"))).1 = onStateWith (str "5 ÷ 0") :=
  ⟨rfl, by decide, by decide,
    (c6_calculate_atomic_on_failure (onStateWith (str "5 ÷ 0")) rfl (by decide) (by decide)).1⟩

/-- C7: arithmetic evaluation follows conventional precedence —
`"2 + 3 × 4"` evaluates to 14 and `"(2 + 3) × 4"` to 20 through the
`parseExpression`/`evaluateExpression` pipeline. -/
theorem c7_pemdas :
    evalPipeline (str "2 + 3 × 4") = some (.num 14) ∧
    evalPipeline (str "(2 + 3) × 4") = some (.num 20) := by
  decide

/-- C8: converting any value to radians and back in any angle mode is
the identity.  In this model the arithmetic is exact rational arithmetic
on the exact value of the double `Math.PI`, which realises the claim's
"within floating-point tolerance". -/
theorem c8_angle_roundtrip :
    ∀ (m : AngleMode) (x : ℚ), convertRadiansToAngle m (convertAngleToRadians m x) = x := by
  intro m x
  have hpi : MathPI ≠ 0 := by norm_num [MathPI]
  cases m
  · unfold convertAngleToRadians convertRadiansToAngle
    field_simp
  · rfl
  · unfold convertAngleToRadians convertRadiansToAngle
    field_simp

/-- C9: `addToHistory` keeps the history bounded by `HISTORY_SIZE` (8),
puts the new pair at the front, and discards exactly the oldest (last)
element when the history was already full. -/
theorem c9_history_bounded :
    ∀ (e r : List Char) (h : List (List Char × List Char)), h.length ≤ HISTORY_SIZE →
      (addToHistory e r h).length ≤ HISTORY_SIZE ∧
      (addToHistory e r h).head? = some (e, r) ∧
      (h.length = HISTORY_SIZE → addToHistory e r h = (e, r) :: h.dropLast) := by
  intro e r h hlen
  have hsize : HISTORY_SIZE = 8 := rfl
  rw [hsize] at hlen ⊢
  unfold addToHistory
  rw [hsize]
  by_cases hfull : h.length = 8
  · have hcond : 8 < ((e, r) :: h).length := by simp [hfull]
    rw [if_pos hcond]
    cases h with
    | nil => simp at hfull
    | cons a t =>
        have hd : ((e, r) :: a :: t).dropLast = (e, r) :: (a :: t).dropLast := rfl
        simp only [List.length_cons] at hfull
        refine ⟨?_, ?_, fun _ => hd⟩
        · simp only [List.length_dropLast, List.length_cons]
          omega
        · rw [hd]
          rfl
  · have hcond : ¬ 8 < ((e, r) :: h).length := by
      simp only [List.length_cons]
      omega
    rw [if_neg hcond]
    refine ⟨?_, rfl, fun hc => absurd hc hfull⟩
    simp only [List.length_cons]
    omega

/-- Witness for C9: pushing onto a full history of length 8 keeps the
bound and places the new pair first. -/
theorem c9_history_bounded_witness :
    (List.replicate 8 (str "x", str "1")).length ≤ HISTORY_SIZE ∧
    (addToHistory (str "a") (str "2") (List.replicate 8 (str "x", str "1"))).length ≤
      HISTORY_SIZE ∧
    (addToHistory (str "a") (str "2") (List.replicate 8 (str "x", str "1"))).head? =
      some (str "a", str "2") :=
  ⟨by decide,
    (c9_history_bounded (str "a") (str "2") (List.replicate 8 (str "x", str "1")) (by decide)).1,
    (c9_history_bounded (str "a") (str "2") (List.replicate 8 (str "x", str "1")) (by decide)).2.1⟩

/-- C10: on a calculator that is on, applying `insertNegative` twice to
an entry line that does not already start with `"−"` (the empty entry
included) restores the original entry line. -/
theorem c10_insertNegative_involutive :
    ∀ s : CalcState, s.isOn = true → s.entryLine.head? ≠ some '−' →
      (insertNegative (insertNegative s)).entryLine = s.entryLine := by
  intro s hOn hHead
  cases hE : s.entryLine with
  | nil =>
      simp [insertNegative, hOn, hE]
  | cons c t =>
      have hc : c ≠ '−' := by
        intro hcc
        exact hHead (by rw [hE, hcc]; rfl)
      simp [insertNegative, hOn, hE, hc]

/-- Witness for C10 at the entry `"5"`. -/
theorem c10_insertNegative_involutive_witness :
    (onStateWith (str "5")).isOn = true ∧
    (onStateWith (str "5")).entryLine.head? ≠ some '−' ∧
    (insertNegative (insertNegative (onStateWith (str "5")))).entryLine = str "5" :=
  ⟨rfl, by decide, c10_insertNegative_involutive (onStateWith (str "5")) rfl (by decide)⟩

end TI30XS
